import Mathlib

/-!
Verification of the physiodsp repository against its specification.

The Python source is shallowly embedded: real-valued quantities are modelled
as rationals (`ℚ`); NaN-producing numpy arithmetic is modelled by `Option ℚ`
(`none` = NaN); Python exceptions are modelled by `Except PyErr`.  Library
calls whose values are irrational (numpy `exp`, `tanh`, square roots inside
`std`/`magnitude`) are taken as function parameters, since no claim depends on
their values beyond what the surrounding guards and clips enforce.
-/

/-- Python exceptions raised by the embedded code. -/
inductive PyErr where
  /-- ValueError (also stands for the pydantic/configuration failure). -/
  | valueError : PyErr
  /-- AttributeError: an instance attribute was read before being assigned. -/
  | attributeError : PyErr
  deriving DecidableEq, Repr

/-- A numpy floating value: `none` models NaN (the reachable divisions by zero
in this code base are all `0/0`, which numpy maps to NaN). -/
abbrev RQ := Option ℚ

/-- NaN-propagating addition. -/
def rqAdd (a b : RQ) : RQ := match a, b with
  | some x, some y => some (x + y)
  | _, _ => none

/-- NaN-propagating subtraction. -/
def rqSub (a b : RQ) : RQ := match a, b with
  | some x, some y => some (x - y)
  | _, _ => none

/-- NaN-propagating multiplication. -/
def rqMul (a b : RQ) : RQ := match a, b with
  | some x, some y => some (x * y)
  | _, _ => none

/-- NaN-propagating division; a zero divisor yields NaN (every reachable zero
divisor in the embedded code has a zero numerator, i.e. is numpy `0/0`). -/
def rqDiv (a b : RQ) : RQ := match a, b with
  | some x, some y => if y = 0 then none else some (x / y)
  | _, _ => none

/-- Apply a real function (e.g. numpy `exp`) under NaN propagation. -/
def rqMap (f : ℚ → ℚ) (a : RQ) : RQ := a.map f

/-- Python `x or d` for a float `x`: `0.0` is falsy, NaN is truthy. -/
def pyOr (x : RQ) (d : ℚ) : RQ := match x with
  | none => none
  | some v => if v = 0 then some d else some v

/-- Python `max(a, b)` with a non-NaN first argument: `b if b > a else a`,
so a NaN second argument yields `a`. -/
def pyMax (a : ℚ) (b : RQ) : ℚ := match b with
  | none => a
  | some v => max a v

/-- Python `min(a, b)` with a non-NaN first argument: NaN second argument
yields `a`. -/
def pyMin (a : ℚ) (b : RQ) : ℚ := match b with
  | none => a
  | some v => min a v

/-- Python `a <= b` where `b` may be NaN (comparisons with NaN are false). -/
def pyLe (a : ℚ) (b : RQ) : Bool := match b with
  | none => false
  | some v => a ≤ v

/-- Numpy clip of v into the interval 0..100: np.clip(v, 0, 100). -/
def qclip (v : ℚ) : ℚ := min 100 (max 0 v)

/-- Numpy clip propagates NaN. -/
def rqClip (a : RQ) : RQ := a.map qclip

/-- Round half to even (Python builtin `round` and `np.round_`). -/
def roundHalfEven (q : ℚ) : ℤ :=
  let f := ⌊q⌋
  let r := q - (f : ℚ)
  if r < 1/2 then f
  else if 1/2 < r then f + 1
  else if f % 2 = 0 then f else f + 1

/-- Python `round(q, 1)`: round half to even at one decimal. -/
def round1 (q : ℚ) : ℚ := (roundHalfEven (10 * q) : ℚ) / 10

/-- NaN-propagating `round(·, 1)` (`round` of a NaN numpy scalar is NaN). -/
def rqRound1 (a : RQ) : RQ := a.map round1

/-! ### Epoch truncation (base.py, time_above_thr.py, pim.py) -/

/-- BaseAlgorithm.aggregate, base.py lines 56-58: the second-stage key is
`(x // self._aggregation_window) * self._aggregation_window` (floored and
re-multiplied by the aggregation window). -/
def BaseAlgorithm.truncTimestamp (w t : ℤ) : ℤ := (Int.fdiv t w) * w

/-- TimeAboveThr.aggregate, time_above_thr.py lines 57-58: the key is
`x // self._aggregation_window`, with no re-multiplication. -/
def TimeAboveThr.truncTimestamp (w t : ℤ) : ℤ := Int.fdiv t w

/-- PIMAlgorithm.aggregate, pim.py lines 36-37: the key is
`x // self.aggregation_window`, with no re-multiplication. -/
def PIMAlgorithm.truncTimestamp (w t : ℤ) : ℤ := Int.fdiv t w

/-- Claim C9: the shared engine's second-stage truncation maps `t` to
`(t // W) * W` while `TimeAboveThr.aggregate` and `PIMAlgorithm.aggregate`
map `t` to `t // W`; the two functions differ at some timestamp `t` and
window `W > 1`, and the extractor-side formulas agree with each other. -/
theorem epoch_truncation_formulas_differ :
    (∀ w t, BaseAlgorithm.truncTimestamp w t = (Int.fdiv t w) * w) ∧
    (∀ w t, TimeAboveThr.truncTimestamp w t = Int.fdiv t w) ∧
    (∀ w t, PIMAlgorithm.truncTimestamp w t = TimeAboveThr.truncTimestamp w t) ∧
    (∃ t w : ℤ, 1 < w ∧
      TimeAboveThr.truncTimestamp w t ≠ BaseAlgorithm.truncTimestamp w t) := by
  refine ⟨fun _ _ => rfl, fun _ _ => rfl, fun _ _ => rfl, 61, 60, by decide, by decide⟩

/-! ### Windowed aggregation (pandas rolling with step, enmo.py, time_above_thr.py) -/

/-- Mean of a list of rationals (windows passed to it are always full). -/
def npMean (xs : List ℚ) : ℚ := xs.sum / xs.length

/-- Maximum of a list (windows passed to it are always full). -/
def listMax [LinearOrder α] [Inhabited α] : List α → α
  | [] => default
  | x :: t => t.foldl max x

/-- Pandas `Series.rolling(window=n, step=n, min_periods=n, closed="left")`
followed by a reduction and `[1:]`.  With `closed="left"` the window labelled
by row `i` covers rows `[i-n, i)`; with `step=n` only rows `0, n, 2n, ...`
(those below the length) are evaluated; the window at row `0` is empty, hence
below `min_periods`, hence `NaN` (`none`); the trailing `[1:]` drops it. -/
def rollingOut (red : List α → β) (n : ℕ) (xs : List α) : List (Option β) :=
  ((List.range ((xs.length + n - 1) / n)).map (fun j =>
    let i := j * n
    if n ≤ i then some (red ((xs.drop (i - n)).take n)) else none)).drop 1

/-- Accelerometer record (sensors/imu/accelerometer.py): synchronized axes. -/
structure AccelerometerData where
  timestamps : List ℚ
  x : List ℚ
  y : List ℚ
  z : List ℚ
  fs : ℕ

/-- IMU record (sensors/imu/base.py). -/
structure IMUData where
  timestamps : List ℤ
  x : List ℚ
  y : List ℚ
  z : List ℚ
  fs : ℕ

/-- IMUData.magnitude: `sqrt(x**2 + y**2 + z**2)` per sample; `sq` stands for
the real square root, whose value no counted claim depends on. -/
def AccelerometerData.magnitude (sq : ℚ → ℚ) (a : AccelerometerData) : List ℚ :=
  (List.range a.x.length).map (fun i =>
    sq ((a.x.getD i 0) ^ 2 + (a.y.getD i 0) ^ 2 + (a.z.getD i 0) ^ 2))

/-- ENMO settings (enmo.py): both fields are pydantic PositiveInt. -/
structure ENMOSettings where
  window_len : ℕ
  aggregation_window : ℕ

/-- Output of ENMO.run: the rolling timestamps and values series. -/
structure ENMOOutput where
  timestamps : List RQ
  values : List RQ

/-- ENMO.run (enmo.py lines 29-61): `enmo = magnitude - 1` rectified at 0,
then both the timestamp series (max-reduced) and the enmo series
(mean-reduced) are rolled with `window = step = min_periods =
int(window_len * fs)`, `closed="left"`, and the first output is dropped. -/
def ENMO.run (sq : ℚ → ℚ) (s : ENMOSettings) (a : AccelerometerData) : ENMOOutput :=
  let n := s.window_len * a.fs
  let enmo := (a.magnitude sq).map (fun m => if m - 1 < 0 then 0 else m - 1)
  { timestamps := rollingOut listMax n a.timestamps
    values := rollingOut npMean n enmo }

/-- TimeAboveThr settings (time_above_thr.py): PositiveInt windows and a
PositiveFloat threshold. -/
structure TimeAboveThrSettings where
  window_len : ℕ
  aggregation_window : ℤ
  threshold : ℚ

/-- One row of the thresholded frame built by TimeAboveThr.run: timestamp and
the three indicator columns `(abs(value) >= threshold).astype(int)`. -/
structure TatSampleRow where
  t : ℤ
  x : ℚ
  y : ℚ
  z : ℚ

/-- The frame `above_thr` of time_above_thr.py lines 34-37. -/
def tatFrame (thr : ℚ) (d : IMUData) : List TatSampleRow :=
  (List.range d.timestamps.length).map (fun i =>
    { t := d.timestamps.getD i 0
      x := if thr ≤ |d.x.getD i 0| then 1 else 0
      y := if thr ≤ |d.y.getD i 0| then 1 else 0
      z := if thr ≤ |d.z.getD i 0| then 1 else 0 })

/-- TimeAboveThr.run rolling aggregation (time_above_thr.py lines 39-44):
max over timestamps, sum over each indicator column, same rolling window. -/
def TimeAboveThr.runRows (wl : ℕ) (thr : ℚ) (d : IMUData) :
    List (Option (ℤ × ℚ × ℚ × ℚ)) :=
  rollingOut (fun w =>
      (listMax (w.map (·.t)), (w.map (·.x)).sum, (w.map (·.y)).sum,
        (w.map (·.z)).sum))
    (wl * d.fs) (tatFrame thr d)

/-! ### Instance-attribute state of TimeAboveThr and PIMAlgorithm -/

/-- Instance attributes of a TimeAboveThr object.  `data`, `values_x`,
`values_y`, `values_z` are read by `aggregate` but never assigned by any
method of the class; `values` is assigned by `run`. -/
structure TimeAboveThrState where
  settings : TimeAboveThrSettings
  window_len : ℕ
  agg_window : ℤ
  data : Option IMUData
  values : Option (List (Option (ℤ × ℚ × ℚ × ℚ)))
  values_x : Option (List ℚ)
  values_y : Option (List ℚ)
  values_z : Option (List ℚ)
  biomarker_agg : Option (List (ℤ × ℚ × ℚ × ℚ))

/-- TimeAboveThr.__init__ (time_above_thr.py lines 24-30): stores the settings
and copies the two window lengths; no data/values attributes are created. -/
def TimeAboveThr.init (s : TimeAboveThrSettings) : TimeAboveThrState :=
  { settings := s, window_len := s.window_len, agg_window := s.aggregation_window
    data := none, values := none, values_x := none, values_y := none
    values_z := none, biomarker_agg := none }

/-- TimeAboveThr.run (time_above_thr.py lines 32-46): assigns only
`self.values`. -/
def TimeAboveThr.run (st : TimeAboveThrState) (d : IMUData) : TimeAboveThrState :=
  { st with values := some (TimeAboveThr.runRows st.window_len st.settings.threshold d) }

/-- Sorted distinct keys of a grouped frame (pandas groupby sorts keys). -/
def groupKeys (ks : List ℤ) : List ℤ := (List.insertionSort (· ≤ ·) ks).dedup

/-- Sum of the values paired with key `k` (the default `sum` reducer). -/
def sumAt (pairs : List (ℤ × ℚ)) (k : ℤ) : ℚ :=
  ((pairs.filter (fun p => p.1 = k)).map (·.2)).sum

/-- TimeAboveThr.aggregate (time_above_thr.py lines 48-64).  It builds a frame
from `zip(self.data.timestamps, self.values_x, self.values_y, self.values_z)`;
`self.data` is evaluated first and none of these four attributes is ever
assigned, so the attribute lookup fails.  The `some` branch models what the
code would do if the attributes existed (floor-divided key, grouped sums). -/
def TimeAboveThr.aggregate (st : TimeAboveThrState) : Except PyErr TimeAboveThrState :=
  match st.data with
  | none => .error .attributeError
  | some d =>
    match st.values_x, st.values_y, st.values_z with
    | some vx, some vy, some vz =>
      let keys := d.timestamps.map (fun t => Int.fdiv t st.agg_window)
      let rows := (groupKeys keys).map (fun k =>
        (k, sumAt (keys.zip vx) k, sumAt (keys.zip vy) k, sumAt (keys.zip vz) k))
      .ok { st with biomarker_agg := some rows }
    | _, _, _ => .error .attributeError

/-- Instance attributes of a PIMAlgorithm object.  `estimate` assigns the
three `values_*` attributes; `data` is never assigned. -/
structure PIMState where
  data : Option IMUData
  values_x : Option (List ℚ)
  values_y : Option (List ℚ)
  values_z : Option (List ℚ)
  biomarker_agg : Option (List (ℤ × ℚ × ℚ × ℚ))

/-- PIMAlgorithm.__init__ (pim.py lines 15-17): assigns nothing. -/
def PIMAlgorithm.init : PIMState :=
  { data := none, values_x := none, values_y := none, values_z := none
    biomarker_agg := none }

/-- PIMAlgorithm.estimate (pim.py lines 19-25): per-axis absolute values. -/
def PIMAlgorithm.estimate (st : PIMState) (d : IMUData) : PIMState :=
  { st with values_x := some (d.x.map (|·|)), values_y := some (d.y.map (|·|))
            values_z := some (d.z.map (|·|)) }

/-- PIMAlgorithm.aggregate (pim.py lines 27-43): reads `self.data.timestamps`
first (never assigned), then the `values_*` attributes; aggregation window is
the class attribute 5. -/
def PIMAlgorithm.aggregate (st : PIMState) : Except PyErr PIMState :=
  match st.data with
  | none => .error .attributeError
  | some d =>
    match st.values_x, st.values_y, st.values_z with
    | some vx, some vy, some vz =>
      let keys := d.timestamps.map (fun t => Int.fdiv t 5)
      let rows := (groupKeys keys).map (fun k =>
        (k, sumAt (keys.zip vx) k, sumAt (keys.zip vy) k, sumAt (keys.zip vz) k))
      .ok { st with biomarker_agg := some rows }
    | _, _, _ => .error .attributeError

/-- Claim C10: after the documented pipeline (`run` for TimeAboveThr,
`estimate` for PIMAlgorithm), `aggregate` raises AttributeError on every
input because it reads `self.data` (and, for TimeAboveThr, `self.values_x/y/z`)
which no method of the class ever assigns; hence neither extractor ever
produces an aggregated biomarker. -/
theorem tat_pim_aggregate_raises :
    (∀ (s : TimeAboveThrSettings) (d : IMUData),
      TimeAboveThr.aggregate (TimeAboveThr.run (TimeAboveThr.init s) d) =
        .error .attributeError ∧
      ((TimeAboveThr.run (TimeAboveThr.init s) d).values).isSome = true ∧
      (TimeAboveThr.run (TimeAboveThr.init s) d).biomarker_agg = none) ∧
    (∀ (d : IMUData),
      PIMAlgorithm.aggregate (PIMAlgorithm.estimate PIMAlgorithm.init d) =
        .error .attributeError ∧
      (PIMAlgorithm.estimate PIMAlgorithm.init d).biomarker_agg = none) :=
  ⟨fun _ _ => ⟨rfl, rfl, rfl⟩, fun _ => ⟨rfl, rfl⟩⟩

/-- Length of the rolling output: `ceil(len/n) - 1` evaluated positions. -/
lemma rollingOut_length (red : List α → β) (n : ℕ) (xs : List α) :
    (rollingOut red n xs).length = (xs.length + n - 1) / n - 1 := by
  simp [rollingOut]

/-- On exactly `k * n` samples the rolling output has `k - 1` entries. -/
lemma rollingOut_length_exact (red : List α → β) {n k : ℕ} (hn : 1 ≤ n)
    {xs : List α} (h : xs.length = k * n) :
    (rollingOut red n xs).length = k - 1 := by
  rw [rollingOut_length, h]
  have h1 : k * n + n - 1 = (n - 1) + n * k := by
    rw [Nat.mul_comm n k]; omega
  rw [h1, Nat.add_mul_div_left _ _ (show 0 < n by omega),
    Nat.div_eq_of_lt (show n - 1 < n by omega)]
  omega

/-- On fewer than `n` samples the rolling output is empty. -/
lemma rollingOut_small (red : List α → β) {n : ℕ} {xs : List α}
    (h : xs.length < n) : rollingOut red n xs = [] := by
  apply List.drop_eq_nil_of_le
  simp only [List.length_map, List.length_range]
  have h2 : xs.length + n - 1 < 2 * n := by omega
  have := (Nat.div_lt_iff_lt_mul (show 0 < n by omega)).mpr
    (show xs.length + n - 1 < 2 * n by omega)
  omega

/-- Claim C5: for `k ≥ 1` full windows of `n = window_len * fs ≥ 1` samples,
the windowed extractors (ENMO values and timestamps, TimeAboveThr rows) emit
exactly `k - 1` windows — the always-partial first rolling output is dropped —
and on fewer than `n` samples they emit nothing. -/
theorem windowed_output_counts
    (sq : ℚ → ℚ) (es : ENMOSettings) (ts : TimeAboveThrSettings)
    (a a' : AccelerometerData) (d d' : IMUData) (k : ℕ)
    (hn : 1 ≤ es.window_len * a.fs)
    (hd2 : 1 ≤ ts.window_len * d.fs)
    (ha : a.timestamps.length = k * (es.window_len * a.fs))
    (hax : a.x.length = k * (es.window_len * a.fs))
    (hd : d.timestamps.length = k * (ts.window_len * d.fs))
    (ha' : a'.timestamps.length < es.window_len * a'.fs)
    (hax' : a'.x.length < es.window_len * a'.fs)
    (hd' : d'.timestamps.length < ts.window_len * d'.fs) :
    ((ENMO.run sq es a).values.length = k - 1 ∧
     (ENMO.run sq es a).timestamps.length = k - 1 ∧
     (TimeAboveThr.runRows ts.window_len ts.threshold d).length = k - 1) ∧
    ((ENMO.run sq es a').values = [] ∧
     (ENMO.run sq es a').timestamps = [] ∧
     TimeAboveThr.runRows ts.window_len ts.threshold d' = []) := by
  have hmag : ∀ (s2 : ℚ → ℚ) (b : AccelerometerData),
      ((b.magnitude s2).map (fun m => if m - 1 < 0 then 0 else m - 1)).length
        = b.x.length := by
    intro s2 b
    simp [AccelerometerData.magnitude]
  have hframe : ∀ (thr : ℚ) (dd : IMUData),
      (tatFrame thr dd).length = dd.timestamps.length := by
    intro thr dd
    simp [tatFrame]
  refine ⟨⟨?_, ?_, ?_⟩, ?_, ?_, ?_⟩
  · exact rollingOut_length_exact _ hn ((hmag sq a).trans hax)
  · exact rollingOut_length_exact _ hn ha
  · exact rollingOut_length_exact _ hd2 ((hframe ts.threshold d).trans hd)
  · exact rollingOut_small _ (by rw [hmag] ; exact hax')
  · exact rollingOut_small _ ha'
  · exact rollingOut_small _ (by rw [hframe] ; exact hd')

/-- Witness for C5: 6 samples at `fs = 2`, `window_len = 1` give `n = 2`,
`k = 3`, hence 2 output windows; 1 sample gives none. -/
theorem windowed_output_counts_witness :
    ((ENMO.run (fun q => q) ⟨1, 60⟩
        ⟨[0, 1, 2, 3, 4, 5], [0, 0, 0, 0, 0, 0], [0, 0, 0, 0, 0, 0],
         [0, 0, 0, 0, 0, 0], 2⟩).values.length = 3 - 1 ∧
     (ENMO.run (fun q => q) ⟨1, 60⟩
        ⟨[0, 1, 2, 3, 4, 5], [0, 0, 0, 0, 0, 0], [0, 0, 0, 0, 0, 0],
         [0, 0, 0, 0, 0, 0], 2⟩).timestamps.length = 3 - 1 ∧
     (TimeAboveThr.runRows (1 : ℕ) (1/10)
        ⟨[0, 1, 2, 3, 4, 5], [0, 0, 0, 0, 0, 0], [0, 0, 0, 0, 0, 0],
         [0, 0, 0, 0, 0, 0], 2⟩).length = 3 - 1) ∧
    ((ENMO.run (fun q => q) ⟨1, 60⟩ ⟨[0], [0], [0], [0], 2⟩).values = [] ∧
     (ENMO.run (fun q => q) ⟨1, 60⟩ ⟨[0], [0], [0], [0], 2⟩).timestamps = [] ∧
     TimeAboveThr.runRows (1 : ℕ) (1/10) ⟨[0], [0], [0], [0], 2⟩ = []) := by
  have h := windowed_output_counts (fun q => q) ⟨1, 60⟩ ⟨1, 60, 1/10⟩
    ⟨[0, 1, 2, 3, 4, 5], [0, 0, 0, 0, 0, 0], [0, 0, 0, 0, 0, 0],
     [0, 0, 0, 0, 0, 0], 2⟩
    ⟨[0], [0], [0], [0], 2⟩
    ⟨[0, 1, 2, 3, 4, 5], [0, 0, 0, 0, 0, 0], [0, 0, 0, 0, 0, 0],
     [0, 0, 0, 0, 0, 0], 2⟩
    ⟨[0], [0], [0], [0], 2⟩ 3
    (by decide) (by decide) (by decide) (by decide) (by decide)
    (by decide) (by decide) (by decide)
  exact h

/-! ### Activity Score (activity/activity_score.py) -/

/-- The scoring_method literal of ActivityScoreSettings. -/
inductive ScoringMethod where
  | gaussian : ScoringMethod
  | sigmoid : ScoringMethod
  | linear : ScoringMethod
  deriving DecidableEq, Repr

/-- Baseline statistics computed by ActivityScore._compute_baseline_stats.
Medians and percentiles of a nonempty numeric column are always numbers;
`std` (pandas, ddof=1) is NaN (`none`) when the baseline has a single row. -/
structure BaselineStats where
  steps_median : ℚ
  steps_std : RQ
  steps_p75 : ℚ
  sleep_median : ℚ
  sleep_std : RQ
  training_median : ℚ
  training_std : RQ
  resting_median : ℚ
  resting_std : RQ

/-- ActivityScore._score_steps (lines 102-130), on the personalized-baseline
path that `run` always takes (the `baseline_stats is None` default path is
unreachable from `run`).  `e` stands for numpy `exp`; the final clip makes the
result independent of its values.  `ceiling = max(baseline * 1.5, p75)`. -/
def ActivityScore._score_steps (e : ℚ → ℚ) (m : ScoringMethod) (daily_steps : ℚ)
    (st : BaselineStats) : RQ :=
  let baseline := st.steps_median
  let ceiling := max (baseline * (3/2)) st.steps_p75
  match m with
  | .gaussian =>
    if baseline = 0 then some 0
    else
      let normalized := daily_steps / baseline
      let peak_normalized := ceiling / baseline
      let std_dev := (peak_normalized - 1) / 2
      rqClip (rqMul (some 100)
        (rqMap e (rqDiv (some (-((normalized - 1) ^ 2))) (some (2 * std_dev ^ 2)))))
  | _ =>
    if ceiling = 0 then some 0
    else some (min 100 (daily_steps / ceiling * 100))

/-- ActivityScore._score_sleep (lines 132-160), personalized path:
`std_sleep = sleep_std or 0.5`, `min = max(4.0, median - 1.5 std)`,
`max = min(11.0, median + 1.5 std)`, `optimal = median`, piecewise ramp,
final `np.clip(score, 0, 100)`.  When `optimal == min_sleep` the middle
branch evaluates `0/0`, which is NaN. -/
def ActivityScore._score_sleep (sleep_hours : ℚ) (st : BaselineStats) : RQ :=
  let median_sleep := st.sleep_median
  let std_sleep := pyOr st.sleep_std (1/2)
  let optimal := median_sleep
  let min_sleep := pyMax 4 (rqSub (some median_sleep) (rqMul std_sleep (some (3/2))))
  let max_sleep := pyMin 11 (rqAdd (some median_sleep) (rqMul std_sleep (some (3/2))))
  let score : RQ :=
    if sleep_hours < min_sleep then
      some (max 0 (50 - (min_sleep - sleep_hours) / min_sleep * 50))
    else if sleep_hours ≤ optimal then
      rqMul (rqDiv (some (sleep_hours - min_sleep)) (some (optimal - min_sleep))) (some 100)
    else if sleep_hours ≤ max_sleep then
      rqSub (some 100)
        (rqMul (rqDiv (some (sleep_hours - optimal)) (some (max_sleep - optimal))) (some 30))
    else
      some (max 0 (70 - (sleep_hours - max_sleep) * 10))
  rqClip score

/-- ActivityScore._score_training (lines 162-188), personalized path:
`std = training_std or 15`, `optimal = max(30, median)`,
`max_train = optimal + 2 std`, piecewise, final clip. -/
def ActivityScore._score_training (training_minutes : ℚ) (st : BaselineStats) : RQ :=
  let median_training := st.training_median
  let std_training := pyOr st.training_std 15
  let optimal := max 30 median_training
  let max_train := rqAdd (some optimal) (rqMul std_training (some 2))
  let score : RQ :=
    if training_minutes < 5 then some 50
    else if training_minutes ≤ optimal then
      some (50 + training_minutes / optimal * 50)
    else if pyLe training_minutes max_train then
      rqSub (rqAdd (some 100)
        (rqMul (rqDiv (some (training_minutes - optimal)) (rqSub max_train (some optimal)))
          (some 10))) (some 10)
    else
      some (pyMax 0 (rqSub (some 100)
        (rqMul (rqSub (some training_minutes) max_train) (some (1/2)))))
  rqClip score

/-- ActivityScore._score_resting (lines 190-222), personalized path, in hour
units: `std = resting_std / 60 or 0.5`, `min = max(6.0, median - 1.5 std)`,
`max = min(12.0, median + 1.5 std)`, `optimal = median` (hours), piecewise,
final clip. -/
def ActivityScore._score_resting (resting_minutes : ℚ) (st : BaselineStats) : RQ :=
  let resting_hours := resting_minutes / 60
  let median_resting := st.resting_median / 60
  let std_resting := pyOr (rqDiv st.resting_std (some 60)) (1/2)
  let optimal_hours := median_resting
  let min_hours := pyMax 6 (rqSub (some median_resting) (rqMul std_resting (some (3/2))))
  let max_hours := pyMin 12 (rqAdd (some median_resting) (rqMul std_resting (some (3/2))))
  let score : RQ :=
    if resting_hours < min_hours then
      some (max 0 (50 - (min_hours - resting_hours) * 15))
    else if resting_hours ≤ optimal_hours then
      rqMul (rqDiv (some (resting_hours - min_hours)) (some (optimal_hours - min_hours)))
        (some 100)
    else if resting_hours ≤ max_hours then
      rqSub (some 100)
        (rqMul (rqDiv (some (resting_hours - optimal_hours)) (some (max_hours - optimal_hours)))
          (some 25))
    else
      some (max 0 (75 - (resting_hours - max_hours) * 10))
  rqClip score

/-- Numpy `np.isclose(a, b, atol=0.01)` with the default `rtol=1e-05`:
`|a - b| <= atol + rtol * |b|`. -/
def npIsClose (a b : ℚ) : Prop := |a - b| ≤ 1/100 + (1/100000) * |b|

instance (a b : ℚ) : Decidable (npIsClose a b) :=
  inferInstanceAs (Decidable (|a - b| ≤ 1/100 + (1/100000) * |b|))

/-- ActivityScore._validate_weights (lines 69-78), called by __init__ before
any run: raises unless `np.isclose(total_weight, 1.0, atol=0.01)`. -/
def ActivityScore._validate_weights (w1 w2 w3 w4 : ℚ) : Except PyErr Unit :=
  if npIsClose (w1 + w2 + w3 + w4) 1 then .ok () else .error .valueError

/-- Weighted combination of the four sub-scores (run, lines 265-270). -/
def activityComposite (s1 s2 s3 s4 : RQ) (w1 w2 w3 w4 : ℚ) : RQ :=
  rqAdd (rqAdd (rqAdd (rqMul s1 (some w1)) (rqMul s2 (some w2)))
    (rqMul s3 (some w3))) (rqMul s4 (some w4))

/-- Pandas Series.median of a numeric column. -/
def pandasMedian (xs : List ℚ) : ℚ :=
  let s := List.insertionSort (· ≤ ·) xs
  let n := xs.length
  if n = 0 then 0
  else if n % 2 = 1 then s.getD (n / 2) 0
  else (s.getD (n / 2 - 1) 0 + s.getD (n / 2) 0) / 2

/-- Pandas Series.quantile(0.75) with linear interpolation. -/
def pandasQuantile75 (xs : List ℚ) : ℚ :=
  let s := List.insertionSort (· ≤ ·) xs
  let n := xs.length
  if n = 0 then 0
  else
    let i : ℕ := 3 * (n - 1) / 4
    let frac : ℚ := (3 : ℚ) * ((n : ℚ) - 1) / 4 - (i : ℚ)
    s.getD i 0 + frac * (s.getD (i + 1) 0 - s.getD i 0)

/-- Sample variance with ddof=1 (the square of the pandas std). -/
def sampleVar (xs : List ℚ) : ℚ :=
  let m := npMean xs
  (xs.map (fun v => (v - m) ^ 2)).sum / ((xs.length : ℚ) - 1)

/-- Pandas Series.std (ddof=1): NaN on a single observation, otherwise the
square root of the sample variance; `sq` stands for the real square root. -/
def pandasStd (sq : ℚ → ℚ) (xs : List ℚ) : RQ :=
  if xs.length ≤ 1 then none else some (sq (sampleVar xs))

/-- One row of the daily-activity table. -/
structure DayRow where
  steps : ℚ
  sleep_hours : ℚ
  training_minutes : ℚ
  resting_minutes : ℚ

/-- ActivityScore._compute_baseline_stats (lines 80-100). -/
def ActivityScore._compute_baseline_stats (sq : ℚ → ℚ) (rows : List DayRow) :
    BaselineStats :=
  { steps_median := pandasMedian (rows.map (·.steps))
    steps_std := pandasStd sq (rows.map (·.steps))
    steps_p75 := pandasQuantile75 (rows.map (·.steps))
    sleep_median := pandasMedian (rows.map (·.sleep_hours))
    sleep_std := pandasStd sq (rows.map (·.sleep_hours))
    training_median := pandasMedian (rows.map (·.training_minutes))
    training_std := pandasStd sq (rows.map (·.training_minutes))
    resting_median := pandasMedian (rows.map (·.resting_minutes))
    resting_std := pandasStd sq (rows.map (·.resting_minutes)) }

/-- ActivityScoreSettings fields used by `run` (the per-factor default
targets feed only the `baseline_stats is None` path, unreachable from run). -/
structure ActivityScoreSettings where
  baseline_window_days : ℕ
  step_weight : ℚ
  sleep_weight : ℚ
  training_weight : ℚ
  resting_weight : ℚ
  scoring_method : ScoringMethod

/-- The score_record built by run (lines 273-285), numeric fields only. -/
structure ScoreRecord where
  activity_score : RQ
  step_score : RQ
  sleep_score : RQ
  training_score : RQ
  resting_score : RQ
  baseline_days_used : ℕ

/-- A daily-activity DataFrame: its column names and its rows. -/
structure DailyFrame where
  cols : List String
  rows : List DayRow

/-- Columns required by ActivityScore.run (line 242). -/
def requiredColumns : List String :=
  ["steps", "sleep_hours", "training_minutes", "resting_minutes"]

/-- Last `n` elements of a list (pandas DataFrame.tail). -/
def takeLast (l : List α) (n : ℕ) : List α := (l.reverse.take n).reverse

/-- ActivityScore.run (lines 224-290): validates columns, then requires at
least 2 rows, then derives baseline statistics from all rows but the last
(capped at baseline_window_days) and scores the last row.  numpy/pandas
arithmetic after validation never raises (NaN propagates as `none`). -/
def ActivityScore.run (sq e : ℚ → ℚ) (s : ActivityScoreSettings)
    (df : DailyFrame) : Except PyErr ScoreRecord :=
  if ¬ (requiredColumns.all (fun c => df.cols.contains c)) then .error .valueError
  else if df.rows.length < 2 then .error .valueError
  else
    let window_size := min s.baseline_window_days (df.rows.length - 1)
    let baseline_data := takeLast df.rows.dropLast window_size
    let current := df.rows.getLastD ⟨0, 0, 0, 0⟩
    let stats := ActivityScore._compute_baseline_stats sq baseline_data
    let step_score := ActivityScore._score_steps e s.scoring_method current.steps stats
    let sleep_score := ActivityScore._score_sleep current.sleep_hours stats
    let training_score := ActivityScore._score_training current.training_minutes stats
    let resting_score := ActivityScore._score_resting current.resting_minutes stats
    let activity_score := activityComposite step_score sleep_score training_score
      resting_score s.step_weight s.sleep_weight s.training_weight s.resting_weight
    .ok { activity_score := rqRound1 activity_score
          step_score := rqRound1 step_score
          sleep_score := rqRound1 sleep_score
          training_score := rqRound1 training_score
          resting_score := rqRound1 resting_score
          baseline_days_used := window_size }

/-- Claim C2 (code bug in _score_sleep): for the degenerate-but-valid baseline
with sleep median 4.0 h and sleep std 0.0 (e.g. every baseline day slept
exactly 4 h), the fallback `or 0.5` makes `min_sleep = max(4.0, 4.0 - 0.75)
= 4.0 = optimal`, and scoring a day with 4.0 h of sleep evaluates
`(4-4)/(4-4) = 0/0` = NaN: the division is not guarded and the returned score
is not a finite number in [0, 100]. -/
theorem score_sleep_nan_on_degenerate_baseline :
    ActivityScore._score_sleep 4
      { steps_median := 8000, steps_std := some 0, steps_p75 := 8000
        sleep_median := 4, sleep_std := some 0, training_median := 60
        training_std := some 0, resting_median := 540, resting_std := some 0 }
      = none := by
  norm_num [ActivityScore._score_sleep, pyOr, pyMax, pyMin, rqAdd, rqSub,
    rqMul, rqDiv, rqClip]

/-- Claim C7 (amended): construction succeeds exactly when the weight sum is
within `np.isclose` tolerance of 1, i.e. `|sum - 1| <= 0.01 + 1e-05` (the
default `rtol = 1e-05` widens the claimed interval [0.99, 1.01] to
[0.98999, 1.01001]); in particular every sum inside [0.99, 1.01] is accepted
and every sum outside [0.98999, 1.01001] raises at construction. -/
theorem validate_weights_tolerance (w1 w2 w3 w4 : ℚ) :
    (ActivityScore._validate_weights w1 w2 w3 w4 = .ok () ↔
      |w1 + w2 + w3 + w4 - 1| ≤ 1001/100000) ∧
    (99/100 ≤ w1 + w2 + w3 + w4 → w1 + w2 + w3 + w4 ≤ 101/100 →
      ActivityScore._validate_weights w1 w2 w3 w4 = .ok ()) ∧
    (¬ |w1 + w2 + w3 + w4 - 1| ≤ 1001/100000 →
      ActivityScore._validate_weights w1 w2 w3 w4 = .error .valueError) := by
  have habs : |(1 : ℚ)| = 1 := by norm_num
  have hiff : ActivityScore._validate_weights w1 w2 w3 w4 = .ok () ↔
      |w1 + w2 + w3 + w4 - 1| ≤ 1001/100000 := by
    unfold ActivityScore._validate_weights
    split
    next h =>
      unfold npIsClose at h
      rw [habs] at h
      exact ⟨fun _ => by linarith, fun _ => rfl⟩
    next h =>
      unfold npIsClose at h
      rw [habs] at h
      exact ⟨fun hc => Except.noConfusion hc,
        fun hc => absurd (by linarith : |w1 + w2 + w3 + w4 - 1| ≤ 1/100 + 1/100000 * 1) h⟩
  refine ⟨hiff, ?_, ?_⟩
  · intro hlo hhi
    apply hiff.mpr
    rw [abs_le]
    constructor <;> linarith
  · intro hout
    unfold ActivityScore._validate_weights
    split
    next h =>
      unfold npIsClose at h
      rw [habs] at h
      exact absurd (by linarith) hout
    next h => rfl

/-- Witness for C7 at the default weights 0.25, 0.35, 0.25, 0.15. -/
theorem validate_weights_tolerance_witness :
    ActivityScore._validate_weights (1/4) (7/20) (1/4) (3/20) = .ok () :=
  (validate_weights_tolerance (1/4) (7/20) (1/4) (3/20)).2.1
    (by norm_num) (by norm_num)

/-- Counterexample for C7: the positive weights 0.25, 0.35, 0.25, 0.160005 sum
to 1.010005, outside the claimed interval [0.99, 1.01], yet np.isclose with
its default rtol accepts the sum and construction succeeds. -/
theorem weights_accepted_outside_claimed_interval :
    101/100 < (1/4 + 7/20 + 1/4 + 160005/1000000 : ℚ) ∧
    ActivityScore._validate_weights (1/4) (7/20) (1/4) (160005/1000000) =
      .ok () := by
  constructor
  · norm_num
  · unfold ActivityScore._validate_weights
    rw [if_pos (by unfold npIsClose; rw [abs_le]; norm_num)]

/-- Claim C8: ActivityScore.run rejects a table that misses a required column
or has fewer than 2 rows before any scoring happens (the Except model returns
the error instead of a record), and accepts any well-formed 2-row table,
completing with a score record (the post-validation numpy/pandas arithmetic
never raises; NaN only propagates into values). -/
theorem activity_run_min_rows
    (sq e : ℚ → ℚ) (s : ActivityScoreSettings) (df : DailyFrame) :
    (df.rows.length < 2 → ActivityScore.run sq e s df = .error .valueError) ∧
    (¬ (requiredColumns.all (fun c => df.cols.contains c)) = true →
      ActivityScore.run sq e s df = .error .valueError) ∧
    ((requiredColumns.all (fun c => df.cols.contains c)) = true →
      df.rows.length = 2 →
      ∃ r : ScoreRecord, ActivityScore.run sq e s df = .ok r ∧
        r.baseline_days_used = min s.baseline_window_days 1) := by
  refine ⟨?_, ?_, ?_⟩
  · intro h
    by_cases hc : (requiredColumns.all (fun c => df.cols.contains c)) = true
    · unfold ActivityScore.run
      rw [if_neg (not_not_intro hc), if_pos h]
    · unfold ActivityScore.run
      rw [if_pos hc]
  · intro hc
    unfold ActivityScore.run
    rw [if_pos hc]
  · intro hc hlen
    unfold ActivityScore.run
    rw [if_neg (not_not_intro hc), if_neg (by omega)]
    refine ⟨_, rfl, ?_⟩
    rw [hlen]

/-- Witness for C8: a well-formed 2-row table completes; its 1-row prefix is
rejected with the data-sufficiency error. -/
theorem activity_run_min_rows_witness :
    (∃ r : ScoreRecord,
      ActivityScore.run (fun q => q) (fun q => q)
        ⟨30, 1/4, 7/20, 1/4, 3/20, .gaussian⟩
        ⟨requiredColumns, [⟨8000, 8, 60, 540⟩, ⟨9000, 7, 30, 500⟩]⟩ = .ok r ∧
      r.baseline_days_used = min 30 1) ∧
    ActivityScore.run (fun q => q) (fun q => q)
      ⟨30, 1/4, 7/20, 1/4, 3/20, .gaussian⟩
      ⟨requiredColumns, [⟨8000, 8, 60, 540⟩]⟩ = .error .valueError := by
  constructor
  · exact (activity_run_min_rows (fun q => q) (fun q => q)
      ⟨30, 1/4, 7/20, 1/4, 3/20, .gaussian⟩
      ⟨requiredColumns, [⟨8000, 8, 60, 540⟩, ⟨9000, 7, 30, 500⟩]⟩).2.2
      (by decide) (by decide)
  · exact (activity_run_min_rows (fun q => q) (fun q => q)
      ⟨30, 1/4, 7/20, 1/4, 3/20, .gaussian⟩
      ⟨requiredColumns, [⟨8000, 8, 60, 540⟩]⟩).1 (by decide)

/-- Counterexample for C1: the accepted weight configuration 0.26, 0.35, 0.25,
0.15 (sum 1.01, within np.isclose tolerance) combined with a non-degenerate
baseline and a current day hitting every factor optimum gives all four
sub-scores exactly 100 and a composite of 101 > 100, which `round(., 1)`
leaves at 101. -/
theorem composite_exceeds_100_with_accepted_weights :
    ActivityScore._validate_weights (26/100) (35/100) (25/100) (15/100) =
      .ok () ∧
    ActivityScore._score_steps (fun q => q) .linear 15000
      { steps_median := 10000, steps_std := some 500, steps_p75 := 10500
        sleep_median := 8, sleep_std := some 1, training_median := 60
        training_std := some 10, resting_median := 540, resting_std := some 60 }
      = some 100 ∧
    ActivityScore._score_sleep 8
      { steps_median := 10000, steps_std := some 500, steps_p75 := 10500
        sleep_median := 8, sleep_std := some 1, training_median := 60
        training_std := some 10, resting_median := 540, resting_std := some 60 }
      = some 100 ∧
    ActivityScore._score_training 60
      { steps_median := 10000, steps_std := some 500, steps_p75 := 10500
        sleep_median := 8, sleep_std := some 1, training_median := 60
        training_std := some 10, resting_median := 540, resting_std := some 60 }
      = some 100 ∧
    ActivityScore._score_resting 540
      { steps_median := 10000, steps_std := some 500, steps_p75 := 10500
        sleep_median := 8, sleep_std := some 1, training_median := 60
        training_std := some 10, resting_median := 540, resting_std := some 60 }
      = some 100 ∧
    activityComposite (some 100) (some 100) (some 100) (some 100)
      (26/100) (35/100) (25/100) (15/100) = some 101 ∧
    rqRound1 (some 101) = some 101 ∧
    ¬ ((101 : ℚ) ≤ 100) := by
  refine ⟨?_, ?_, ?_, ?_, ?_, ?_, ?_, by norm_num⟩
  · unfold ActivityScore._validate_weights
    rw [if_pos (by unfold npIsClose; rw [abs_le]; norm_num)]
  · norm_num [ActivityScore._score_steps, pyOr, pyMax, pyMin, rqAdd, rqSub,
      rqMul, rqDiv, rqClip, rqMap, qclip]
  · norm_num [ActivityScore._score_sleep, pyOr, pyMax, pyMin, rqAdd, rqSub,
      rqMul, rqDiv, rqClip, qclip]
  · norm_num [ActivityScore._score_training, pyOr, pyMax, pyMin, pyLe, rqAdd,
      rqSub, rqMul, rqDiv, rqClip, qclip]
  · norm_num [ActivityScore._score_resting, pyOr, pyMax, pyMin, rqAdd, rqSub,
      rqMul, rqDiv, rqClip, qclip]
  · norm_num [activityComposite, rqAdd, rqMul]
  · norm_num [rqRound1, round1, roundHalfEven]

/-! ### HRV Score (hrv/hrv_score.py) -/

/-- The method literal of HrvScoreSettings. -/
inductive HrvMethod where
  | sigmoid : HrvMethod
  | percentile : HrvMethod
  deriving DecidableEq, Repr

/-- Numpy median (same computation as the pandas median). -/
def npMedian (xs : List ℚ) : ℚ := pandasMedian xs

/-- Population variance (ddof=0): the square of `np.std`. -/
def popVar (xs : List ℚ) : ℚ :=
  let m := npMean xs
  (xs.map (fun v => (v - m) ^ 2)).sum / (xs.length : ℚ)

/-- Scipy `percentileofscore(a, score)`, default kind "rank":
`(left + right + (1 if right > left else 0)) * 50 / n`. -/
def percentileOfScore (a : List ℚ) (score : ℚ) : ℚ :=
  let left := (a.filter (fun v => v < score)).length
  let right := (a.filter (fun v => v ≤ score)).length
  ((left : ℚ) + (right : ℚ) + (if left < right then 1 else 0)) * 50 / (a.length : ℚ)

/-- Steps 1-3 of _compute_hrv_score (lines 48-61): baseline median, z-score
guarded by `std > 0`, then `50 + 30*tanh(0.5*z)` for the sigmoid method or
the percentile rank otherwise.  `tq` stands for numpy tanh and `std` for the
value of `np.std(last_30_days_rmssd)`. -/
def hrvBaseScore (tq : ℚ → ℚ) (m : HrvMethod) (current : ℚ) (base : List ℚ)
    (std : ℚ) : ℚ :=
  let baseline := npMedian base
  let z_score := if 0 < std then (current - baseline) / std else 0
  match m with
  | .sigmoid => 50 + 30 * tq (1/2 * z_score)
  | .percentile => percentileOfScore base current

/-- The relative trend of step 4 (lines 63-66): first-10 mean vs last-10
mean, guarded by `first_10_mean > 0`. -/
def hrvTrend (base : List ℚ) : ℚ :=
  let first_10_mean := npMean (base.take 10)
  let last_10_mean := npMean (takeLast base 10)
  if 0 < first_10_mean then (last_10_mean - first_10_mean) / first_10_mean else 0

/-- The trend-to-bonus table of lines 68-75: +10 above 0.10, +5 above 0.05,
-5 below -0.05, otherwise 0.  There is no -10 case. -/
def trendToBonus (trend : ℚ) : ℚ :=
  if 1/10 < trend then 10
  else if 1/20 < trend then 5
  else if trend < -(1/20) then -5
  else 0

/-- Trend bonus of _compute_hrv_score (step 4). -/
def hrvTrendBonus (base : List ℚ) : ℚ := trendToBonus (hrvTrend base)

/-- Coefficient of variation (line 51), guarded by `baseline > 0`. -/
def hrvCv (base : List ℚ) (std : ℚ) : ℚ :=
  if 0 < npMedian base then std / npMedian base else 0

/-- The cv-to-penalty table of lines 77-83: -10 above 0.15, -5 above 0.10. -/
def cvToPenalty (cv : ℚ) : ℚ :=
  if 3/20 < cv then -10
  else if 1/10 < cv then -5
  else 0

/-- Stability penalty of _compute_hrv_score (step 5). -/
def hrvStabilityPenalty (base : List ℚ) (std : ℚ) : ℚ :=
  cvToPenalty (hrvCv base std)

/-- HrvScore._compute_hrv_score (lines 37-89): base score plus trend bonus
plus stability penalty, `np.clip(., 0, 100)`, then `round` (half to even). -/
def HrvScore._compute_hrv_score (tq : ℚ → ℚ) (m : HrvMethod) (current : ℚ)
    (base : List ℚ) (std : ℚ) : ℤ :=
  roundHalfEven (qclip (hrvBaseScore tq m current base std
    + hrvTrendBonus base + hrvStabilityPenalty base std))

/-- HRV series record (sensors/hrv.py). -/
structure HrvData where
  timestamps : List ℚ
  values : List ℚ

/-- HrvScore.run (lines 29-35): scores `values[-1]` against the baseline
slice `values[-window_len:-1]`; `std` stands for the numpy std of that slice. -/
def HrvScore.run (tq : ℚ → ℚ) (m : HrvMethod) (window_len : ℕ) (d : HrvData)
    (std : ℚ) : ℤ :=
  HrvScore._compute_hrv_score tq m (d.values.getLastD 0)
    (takeLast d.values window_len).dropLast std

/-- Possible values of the trend bonus: -10 is not among them. -/
lemma trendToBonus_mem (t : ℚ) :
    trendToBonus t = 10 ∨ trendToBonus t = 5 ∨ trendToBonus t = -5 ∨
      trendToBonus t = 0 := by
  unfold trendToBonus
  split_ifs <;> tauto

/-- Possible values of the stability penalty. -/
lemma cvToPenalty_mem (c : ℚ) :
    cvToPenalty c = 0 ∨ cvToPenalty c = -5 ∨ cvToPenalty c = -10 := by
  unfold cvToPenalty
  split_ifs <;> tauto

/-- Counterexample for C6: a baseline that halves (first-10 mean 100, last-10
mean 50, relative trend -0.5, as declining as one likes) earns a trend bonus
of -5, not -10; indeed no baseline at all produces a -10 trend bonus. -/
theorem hrv_trend_penalty_never_minus_ten :
    hrvTrendBonus [100, 100, 100, 100, 100, 100, 100, 100, 100, 100,
      50, 50, 50, 50, 50, 50, 50, 50, 50, 50] = -5 ∧
    ¬ ∃ base : List ℚ, hrvTrendBonus base = -10 := by
  constructor
  · norm_num [hrvTrendBonus, hrvTrend, trendToBonus, takeLast, npMean]
  · rintro ⟨base, hb⟩
    rcases trendToBonus_mem (hrvTrend base) with h | h | h | h <;>
      rw [hrvTrendBonus] at hb <;> rw [h] at hb <;> norm_num at hb

/-- Claim C6 (amended): the HRV score is the clipped, half-to-even-rounded sum
of the base score (sigmoid map of the z-score, or percentile rank), the trend
bonus and the stability penalty; the trend bonus takes only the values
+10 (trend > 0.10), +5 (trend > 0.05), -5 (trend < -0.05) or 0 — never -10 —
and the stability penalty is -10 for cv > 0.15, -5 for 0.10 < cv ≤ 0.15,
else 0. -/
theorem hrv_score_formula (tq : ℚ → ℚ) (hm : HrvMethod) (current std : ℚ)
    (base : List ℚ) (hbase : base ≠ []) (hstd : 0 ≤ std)
    (hchar : std ^ 2 = popVar base) :
    HrvScore._compute_hrv_score tq hm current base std =
      roundHalfEven (qclip (hrvBaseScore tq hm current base std
        + hrvTrendBonus base + hrvStabilityPenalty base std)) ∧
    (hrvTrendBonus base = 10 ∨ hrvTrendBonus base = 5 ∨
      hrvTrendBonus base = -5 ∨ hrvTrendBonus base = 0) ∧
    (1/10 < hrvTrend base → hrvTrendBonus base = 10) ∧
    (hrvTrend base < -(1/20) → hrvTrendBonus base = -5) ∧
    (3/20 < hrvCv base std → hrvStabilityPenalty base std = -10) ∧
    (1/10 < hrvCv base std → hrvCv base std ≤ 3/20 →
      hrvStabilityPenalty base std = -5) := by
  refine ⟨rfl, trendToBonus_mem _, ?_, ?_, ?_, ?_⟩
  · intro h
    unfold hrvTrendBonus trendToBonus
    rw [if_pos h]
  · intro h
    unfold hrvTrendBonus trendToBonus
    rw [if_neg (by linarith), if_neg (by linarith), if_pos h]
  · intro h
    unfold hrvStabilityPenalty cvToPenalty
    rw [if_pos h]
  · intro h h'
    unfold hrvStabilityPenalty cvToPenalty
    rw [if_neg (by linarith), if_pos h]

/-- Witness for C6 at a constant baseline (std 0, trend 0, cv 0). -/
theorem hrv_score_formula_witness :
    HrvScore._compute_hrv_score (fun q => q) .sigmoid 50 [50, 50] 0 =
      roundHalfEven (qclip (hrvBaseScore (fun q => q) .sigmoid 50 [50, 50] 0
        + hrvTrendBonus [50, 50] + hrvStabilityPenalty [50, 50] 0)) ∧
    (hrvTrendBonus [50, 50] = 10 ∨ hrvTrendBonus [50, 50] = 5 ∨
      hrvTrendBonus [50, 50] = -5 ∨ hrvTrendBonus [50, 50] = 0) ∧
    (1/10 < hrvTrend [50, 50] → hrvTrendBonus [50, 50] = 10) ∧
    (hrvTrend [50, 50] < -(1/20) → hrvTrendBonus [50, 50] = -5) ∧
    (3/20 < hrvCv [50, 50] 0 → hrvStabilityPenalty [50, 50] 0 = -10) ∧
    (1/10 < hrvCv [50, 50] 0 → hrvCv [50, 50] 0 ≤ 3/20 →
      hrvStabilityPenalty [50, 50] 0 = -5) :=
  hrv_score_formula (fun q => q) .sigmoid 50 0 [50, 50] (by simp)
    (by norm_num) (by norm_num [popVar, npMean])

/-! ### Bounds of the scoring functions -/

/-- Clipping lands in [0, 100]. -/
lemma qclip_bounds (w : ℚ) : 0 ≤ qclip w ∧ qclip w ≤ 100 := by
  unfold qclip
  exact ⟨le_min (by norm_num) (le_max_left 0 w), min_le_left _ _⟩

/-- Rounding a nonnegative rational is nonnegative. -/
lemma roundHalfEven_nonneg {q : ℚ} (h : 0 ≤ q) : 0 ≤ roundHalfEven q := by
  simp only [roundHalfEven]
  have hf : (0 : ℤ) ≤ ⌊q⌋ := Int.floor_nonneg.mpr h
  split_ifs <;> omega

/-- Rounding a rational at most 100 stays at most 100. -/
lemma roundHalfEven_le_hundred {q : ℚ} (h : q ≤ 100) : roundHalfEven q ≤ 100 := by
  simp only [roundHalfEven]
  have hf : ⌊q⌋ ≤ 100 := by
    calc ⌊q⌋ ≤ ⌊(100 : ℚ)⌋ := Int.floor_mono h
    _ = 100 := Int.floor_eq_iff.mpr ⟨by norm_num, by norm_num⟩
  have hfl : (⌊q⌋ : ℚ) ≤ q := Int.floor_le q
  have h99 : (1 : ℚ)/2 ≤ q - (⌊q⌋ : ℚ) → ⌊q⌋ + 1 ≤ 100 := by
    intro hh
    have hq2 : (⌊q⌋ : ℚ) ≤ 199/2 := by linarith
    have hq3 : ⌊q⌋ ≤ ⌊(199 : ℚ)/2⌋ := Int.le_floor.mpr hq2
    have hq4 : ⌊(199 : ℚ)/2⌋ = 99 := Int.floor_eq_iff.mpr ⟨by norm_num, by norm_num⟩
    omega
  split_ifs with h1 h2 h3
  · exact hf
  · exact h99 (not_lt.mp h1)
  · exact hf
  · exact h99 (not_lt.mp h1)

/-- A `x or d` fallback with positive default and nonnegative input is either
NaN or a positive number. -/
lemma pyOr_pos (x : RQ) (d : ℚ) (hd : 0 < d) (hx : ∀ s, x = some s → 0 ≤ s) :
    (x = none ∧ pyOr x d = none) ∨ ∃ s, pyOr x d = some s ∧ 0 < s := by
  cases x with
  | none => exact Or.inl ⟨rfl, rfl⟩
  | some v =>
    right
    by_cases h0 : v = 0
    · exact ⟨d, by simp [pyOr, h0], hd⟩
    · exact ⟨v, by simp [pyOr, h0], lt_of_le_of_ne (hx v rfl) (Ne.symm h0)⟩

/-- Under a positive baseline steps median (and nonnegative daily steps for
the linear mode) the step score is a number in [0, 100]. -/
lemma score_steps_bounds (e : ℚ → ℚ) (m : ScoringMethod) (ds : ℚ)
    (st : BaselineStats) (h1 : 0 < st.steps_median) (hds : 0 ≤ ds) :
    ∃ v, ActivityScore._score_steps e m ds st = some v ∧ 0 ≤ v ∧ v ≤ 100 := by
  have hceil : st.steps_median * (3/2) ≤ max (st.steps_median * (3/2)) st.steps_p75 :=
    le_max_left _ _
  have hcpos : 0 < max (st.steps_median * (3/2)) st.steps_p75 := by
    have : 0 < st.steps_median * (3/2) := by linarith
    linarith
  cases m with
  | gaussian =>
    simp only [ActivityScore._score_steps]
    rw [if_neg (ne_of_gt h1)]
    have hpeak : (3/2 : ℚ) ≤ max (st.steps_median * (3/2)) st.steps_p75 / st.steps_median := by
      rw [le_div_iff h1]
      calc (3/2 : ℚ) * st.steps_median = st.steps_median * (3/2) := by ring
      _ ≤ _ := hceil
    have hsd : (0 : ℚ) <
        2 * ((max (st.steps_median * (3/2)) st.steps_p75 / st.steps_median - 1) / 2) ^ 2 := by
      have : (1/4 : ℚ) ≤ (max (st.steps_median * (3/2)) st.steps_p75 / st.steps_median - 1) / 2 := by
        linarith
      nlinarith
    refine ⟨qclip (100 * e (-((ds / st.steps_median - 1) ^ 2) /
      (2 * ((max (st.steps_median * (3/2)) st.steps_p75 / st.steps_median - 1) / 2) ^ 2))), ?_,
      qclip_bounds _⟩
    simp [rqDiv, rqMap, rqMul, rqClip, ne_of_gt hsd]
  | sigmoid =>
    simp only [ActivityScore._score_steps]
    rw [if_neg (ne_of_gt hcpos)]
    refine ⟨min 100 (ds / max (st.steps_median * (3/2)) st.steps_p75 * 100), rfl, ?_, min_le_left _ _⟩
    exact le_min (by norm_num) (by positivity)
  | linear =>
    simp only [ActivityScore._score_steps]
    rw [if_neg (ne_of_gt hcpos)]
    refine ⟨min 100 (ds / max (st.steps_median * (3/2)) st.steps_p75 * 100), rfl, ?_, min_le_left _ _⟩
    exact le_min (by norm_num) (by positivity)

/-- Under a non-degenerate sleep baseline (median strictly between the 4 h
floor and the 11 h cap, nonnegative std) the sleep score is in [0, 100]. -/
lemma score_sleep_bounds (sh : ℚ) (st : BaselineStats)
    (h2 : 4 < st.sleep_median) (h2' : st.sleep_median < 11)
    (h3 : ∀ s, st.sleep_std = some s → 0 ≤ s) :
    ∃ v, ActivityScore._score_sleep sh st = some v ∧ 0 ≤ v ∧ v ≤ 100 := by
  have key : ∃ mn mx : ℚ,
      pyMax 4 (rqSub (some st.sleep_median)
        (rqMul (pyOr st.sleep_std (1/2)) (some (3/2)))) = mn ∧
      pyMin 11 (rqAdd (some st.sleep_median)
        (rqMul (pyOr st.sleep_std (1/2)) (some (3/2)))) = mx ∧
      mn < st.sleep_median ∧ st.sleep_median < mx := by
    rcases pyOr_pos st.sleep_std (1/2) (by norm_num) h3 with ⟨_, hn⟩ | ⟨s, hs, hspos⟩
    · exact ⟨4, 11, by rw [hn]; rfl, by rw [hn]; rfl, h2, h2'⟩
    · refine ⟨max 4 (st.sleep_median - s * (3/2)),
        min 11 (st.sleep_median + s * (3/2)), ?_, ?_, ?_, ?_⟩
      · rw [hs]; rfl
      · rw [hs]; rfl
      · exact max_lt h2 (by linarith)
      · exact lt_min h2' (by linarith)
  obtain ⟨mn, mx, hmn, hmx, hmnm, hmmx⟩ := key
  simp only [ActivityScore._score_sleep, hmn, hmx]
  split_ifs with hb1 hb2 hb3
  · exact ⟨qclip (max 0 (50 - (mn - sh) / mn * 50)), rfl, qclip_bounds _⟩
  · have hne : st.sleep_median - mn ≠ 0 := ne_of_gt (by linarith)
    refine ⟨qclip ((sh - mn) / (st.sleep_median - mn) * 100), ?_, qclip_bounds _⟩
    simp [rqDiv, rqMul, rqClip, hne]
  · have hne : mx - st.sleep_median ≠ 0 := ne_of_gt (by linarith)
    refine ⟨qclip (100 - (sh - st.sleep_median) / (mx - st.sleep_median) * 30), ?_,
      qclip_bounds _⟩
    simp [rqDiv, rqMul, rqSub, rqClip, hne]
  · exact ⟨qclip (max 0 (70 - (sh - mx) * 10)), rfl, qclip_bounds _⟩

/-- Under a nonnegative training std the training score is in [0, 100]. -/
lemma score_training_bounds (tm : ℚ) (st : BaselineStats)
    (h4 : ∀ s, st.training_std = some s → 0 ≤ s) :
    ∃ v, ActivityScore._score_training tm st = some v ∧ 0 ≤ v ∧ v ≤ 100 := by
  rcases pyOr_pos st.training_std 15 (by norm_num) h4 with ⟨_, hn⟩ | ⟨s, hs, hspos⟩
  · have hmt : rqAdd (some (max 30 st.training_median))
        (rqMul (pyOr st.training_std 15) (some 2)) = none := by
      rw [hn]; rfl
    simp only [ActivityScore._score_training, hmt]
    split_ifs with hb1 hb2 hb3
    · exact ⟨_, rfl, qclip_bounds _⟩
    · exact ⟨_, rfl, qclip_bounds _⟩
    · exact absurd hb3 (by simp [pyLe])
    · exact ⟨_, rfl, qclip_bounds _⟩
  · have hmt : rqAdd (some (max 30 st.training_median))
        (rqMul (pyOr st.training_std 15) (some 2)) =
        some (max 30 st.training_median + s * 2) := by
      rw [hs]; rfl
    simp only [ActivityScore._score_training, hmt]
    have hne : max 30 st.training_median + s * 2 - max 30 st.training_median ≠ 0 :=
      ne_of_gt (by linarith)
    split_ifs with hb1 hb2 hb3
    · exact ⟨_, rfl, qclip_bounds _⟩
    · exact ⟨_, rfl, qclip_bounds _⟩
    · have hd : rqDiv (some (tm - max 30 st.training_median))
          (rqSub (some (max 30 st.training_median + s * 2))
            (some (max 30 st.training_median))) =
          some ((tm - max 30 st.training_median) /
            (max 30 st.training_median + s * 2 - max 30 st.training_median)) := by
        simp only [rqSub, rqDiv]
        rw [if_neg hne]
      rw [hd]
      exact ⟨_, rfl, qclip_bounds _⟩
    · exact ⟨_, rfl, qclip_bounds _⟩

/-- Under a non-degenerate resting baseline (median strictly between the 6 h
floor and the 12 h cap, nonnegative std) the resting score is in [0, 100]. -/
lemma score_resting_bounds (rm : ℚ) (st : BaselineStats)
    (h5 : 360 < st.resting_median) (h5' : st.resting_median < 720)
    (h6 : ∀ s, st.resting_std = some s → 0 ≤ s) :
    ∃ v, ActivityScore._score_resting rm st = some v ∧ 0 ≤ v ∧ v ≤ 100 := by
  have hm6 : 6 < st.resting_median / 60 := by linarith
  have hm12 : st.resting_median / 60 < 12 := by linarith
  have h6' : ∀ s, rqDiv st.resting_std (some 60) = some s → 0 ≤ s := by
    intro s hs
    cases hstd : st.resting_std with
    | none => rw [hstd] at hs; exact absurd hs (by simp [rqDiv])
    | some v =>
      rw [hstd] at hs
      simp only [rqDiv] at hs
      rw [if_neg (by norm_num)] at hs
      have := h6 v hstd
      have hv : v / 60 = s := by simpa using hs
      rw [← hv]
      positivity
  have key : ∃ mn mx : ℚ,
      pyMax 6 (rqSub (some (st.resting_median / 60))
        (rqMul (pyOr (rqDiv st.resting_std (some 60)) (1/2)) (some (3/2)))) = mn ∧
      pyMin 12 (rqAdd (some (st.resting_median / 60))
        (rqMul (pyOr (rqDiv st.resting_std (some 60)) (1/2)) (some (3/2)))) = mx ∧
      mn < st.resting_median / 60 ∧ st.resting_median / 60 < mx := by
    rcases pyOr_pos (rqDiv st.resting_std (some 60)) (1/2) (by norm_num) h6' with
      ⟨_, hn⟩ | ⟨s, hs, hspos⟩
    · exact ⟨6, 12, by rw [hn]; rfl, by rw [hn]; rfl, hm6, hm12⟩
    · refine ⟨max 6 (st.resting_median / 60 - s * (3/2)),
        min 12 (st.resting_median / 60 + s * (3/2)), ?_, ?_, ?_, ?_⟩
      · rw [hs]; rfl
      · rw [hs]; rfl
      · exact max_lt hm6 (by linarith)
      · exact lt_min hm12 (by linarith)
  obtain ⟨mn, mx, hmn, hmx, hmnm, hmmx⟩ := key
  simp only [ActivityScore._score_resting, hmn, hmx]
  split_ifs with hb1 hb2 hb3
  · exact ⟨qclip (max 0 (50 - (mn - rm / 60) * 15)), rfl, qclip_bounds _⟩
  · have hne : st.resting_median / 60 - mn ≠ 0 := ne_of_gt (by linarith)
    refine ⟨qclip ((rm / 60 - mn) / (st.resting_median / 60 - mn) * 100), ?_,
      qclip_bounds _⟩
    simp [rqDiv, rqMul, rqClip, hne]
  · have hne : mx - st.resting_median / 60 ≠ 0 := ne_of_gt (by linarith)
    refine ⟨qclip (100 - (rm / 60 - st.resting_median / 60) /
      (mx - st.resting_median / 60) * 25), ?_, qclip_bounds _⟩
    simp [rqDiv, rqMul, rqSub, rqClip, hne]
  · exact ⟨qclip (max 0 (75 - (rm / 60 - mx) * 10)), rfl, qclip_bounds _⟩

/-- Claim C1 (amended): for non-degenerate inputs every per-factor sub-score
is a number in [0, 100] and the HRV score is in [0, 100]; the weighted
composite is in [0, 100] whenever the weights are nonnegative and sum to at
most 1 (in particular for the defaults).  An accepted configuration whose
weights sum to 1.01 can push the composite to 101, so the [0, 100] bound on
the composite does not hold for every accepted weight configuration. -/
theorem scores_bounded_in_0_100
    (e tq : ℚ → ℚ) (m : ScoringMethod) (hm : HrvMethod) (st : BaselineStats)
    (daily_steps sleep_hours training_minutes resting_minutes current std : ℚ)
    (base : List ℚ)
    (h1 : 0 < st.steps_median) (hds : 0 ≤ daily_steps)
    (h2 : 4 < st.sleep_median) (h2' : st.sleep_median < 11)
    (h3 : ∀ s, st.sleep_std = some s → 0 ≤ s)
    (h4 : ∀ s, st.training_std = some s → 0 ≤ s)
    (h5 : 360 < st.resting_median) (h5' : st.resting_median < 720)
    (h6 : ∀ s, st.resting_std = some s → 0 ≤ s)
    (hbase : base ≠ []) (hstd : 0 ≤ std) (hchar : std ^ 2 = popVar base) :
    (∃ v, ActivityScore._score_steps e m daily_steps st = some v ∧
      0 ≤ v ∧ v ≤ 100) ∧
    (∃ v, ActivityScore._score_sleep sleep_hours st = some v ∧
      0 ≤ v ∧ v ≤ 100) ∧
    (∃ v, ActivityScore._score_training training_minutes st = some v ∧
      0 ≤ v ∧ v ≤ 100) ∧
    (∃ v, ActivityScore._score_resting resting_minutes st = some v ∧
      0 ≤ v ∧ v ≤ 100) ∧
    (∀ a b c d w1 w2 w3 w4 : ℚ, 0 ≤ a → a ≤ 100 → 0 ≤ b → b ≤ 100 →
      0 ≤ c → c ≤ 100 → 0 ≤ d → d ≤ 100 → 0 ≤ w1 → 0 ≤ w2 → 0 ≤ w3 → 0 ≤ w4 →
      w1 + w2 + w3 + w4 ≤ 1 →
      ∃ v, activityComposite (some a) (some b) (some c) (some d) w1 w2 w3 w4 =
        some v ∧ 0 ≤ v ∧ v ≤ 100) ∧
    (0 ≤ HrvScore._compute_hrv_score tq hm current base std ∧
      HrvScore._compute_hrv_score tq hm current base std ≤ 100) := by
  refine ⟨score_steps_bounds e m daily_steps st h1 hds,
    score_sleep_bounds sleep_hours st h2 h2' h3,
    score_training_bounds training_minutes st h4,
    score_resting_bounds resting_minutes st h5 h5' h6, ?_, ?_, ?_⟩
  · intro a b c d w1 w2 w3 w4 ha ha' hb hb' hc hc' hd hd' hw1 hw2 hw3 hw4 hsum
    refine ⟨a * w1 + b * w2 + c * w3 + d * w4, rfl, ?_, ?_⟩
    · have p1 := mul_nonneg ha hw1
      have p2 := mul_nonneg hb hw2
      have p3 := mul_nonneg hc hw3
      have p4 := mul_nonneg hd hw4
      linarith
    · have t1 := mul_le_mul_of_nonneg_right ha' hw1
      have t2 := mul_le_mul_of_nonneg_right hb' hw2
      have t3 := mul_le_mul_of_nonneg_right hc' hw3
      have t4 := mul_le_mul_of_nonneg_right hd' hw4
      linarith
  · exact roundHalfEven_nonneg (qclip_bounds _).1
  · exact roundHalfEven_le_hundred (qclip_bounds _).2

/-- Witness for C1, at a concrete non-degenerate baseline, the default
weights, and a constant HRV baseline. -/
theorem scores_bounded_in_0_100_witness :
    (∃ v, ActivityScore._score_steps (fun q => q) .gaussian 9000
      ⟨10000, none, 10500, 8, none, 60, none, 540, none⟩ = some v ∧
      0 ≤ v ∧ v ≤ 100) ∧
    (∃ v, ActivityScore._score_sleep 7
      ⟨10000, none, 10500, 8, none, 60, none, 540, none⟩ = some v ∧
      0 ≤ v ∧ v ≤ 100) ∧
    (∃ v, ActivityScore._score_training 45
      ⟨10000, none, 10500, 8, none, 60, none, 540, none⟩ = some v ∧
      0 ≤ v ∧ v ≤ 100) ∧
    (∃ v, ActivityScore._score_resting 500
      ⟨10000, none, 10500, 8, none, 60, none, 540, none⟩ = some v ∧
      0 ≤ v ∧ v ≤ 100) ∧
    (∃ v, activityComposite (some 100) (some 100) (some 100) (some 100)
      (1/4) (7/20) (1/4) (3/20) = some v ∧ 0 ≤ v ∧ v ≤ 100) ∧
    (0 ≤ HrvScore._compute_hrv_score (fun q => q) .sigmoid 55 [50, 50] 0 ∧
      HrvScore._compute_hrv_score (fun q => q) .sigmoid 55 [50, 50] 0 ≤ 100) := by
  have h := scores_bounded_in_0_100 (fun q => q) (fun q => q) .gaussian .sigmoid
    ⟨10000, none, 10500, 8, none, 60, none, 540, none⟩
    9000 7 45 500 55 0 [50, 50]
    (by norm_num) (by norm_num) (by norm_num) (by norm_num)
    (fun s hs => nomatch hs) (fun s hs => nomatch hs)
    (by norm_num) (by norm_num) (fun s hs => nomatch hs)
    (by simp) (by norm_num) (by norm_num [popVar, npMean])
  exact ⟨h.1, h.2.1, h.2.2.1, h.2.2.2.1,
    h.2.2.2.2.1 100 100 100 100 (1/4) (7/20) (1/4) (3/20)
      (by norm_num) (by norm_num) (by norm_num) (by norm_num) (by norm_num)
      (by norm_num) (by norm_num) (by norm_num) (by norm_num) (by norm_num)
      (by norm_num) (by norm_num) (by norm_num),
    h.2.2.2.2.2⟩

/-! ### ECG peak detection (ecg/peak_detector.py, scipy find_peaks) -/

/-- Inner while of scipy _local_maxima_1d: starting at `i`, skip indices below
`iMax` whose sample equals the plateau value `v`; `fuel` is an upper bound on
the remaining steps (the callers pass the signal length, which the loop never
exceeds), so the recursion mirrors the loop exactly. -/
def plateauEnd (x : List ℚ) (v : ℚ) (iMax : ℕ) : ℕ → ℕ → ℕ
  | 0, i => i
  | fuel + 1, i =>
    if i < iMax ∧ x.getD i 0 = v then plateauEnd x v iMax fuel (i + 1) else i

/-- Main loop of scipy _local_maxima_1d over indices `1 ≤ i < iMax`: when the
signal strictly rises into `i` and strictly falls after the plateau starting
at `i`, the plateau midpoint is a local maximum and the scan resumes one past
the plateau end; otherwise the scan advances by one. -/
def lmAux (x : List ℚ) (iMax : ℕ) : ℕ → ℕ → List ℕ
  | 0, _ => []
  | fuel + 1, i =>
    if i < iMax then
      if x.getD (i - 1) 0 < x.getD i 0 then
        if x.getD (plateauEnd x (x.getD i 0) iMax x.length (i + 1)) 0 < x.getD i 0 then
          (i + (plateauEnd x (x.getD i 0) iMax x.length (i + 1) - 1)) / 2 ::
            lmAux x iMax fuel (plateauEnd x (x.getD i 0) iMax x.length (i + 1) + 1)
        else lmAux x iMax fuel (i + 1)
      else lmAux x iMax fuel (i + 1)
    else []

/-- Local maxima (plateau midpoints) of a signal, scipy _local_maxima_1d. -/
def localMaxima (x : List ℚ) : List ℕ := lmAux x (x.length - 1) x.length 1

/-- Distance between two sample indices. -/
def natDist (a b : ℕ) : ℕ := max a b - min a b

/-- One step of scipy _select_by_peak_distance: when the processed peak `p` is
still kept, every other kept peak strictly closer than `d` samples is
discarded. -/
def processPeak (d : ℕ) (kept : List ℕ) (p : ℕ) : List ℕ :=
  if p ∈ kept then kept.filter (fun q => q == p || decide (d ≤ natDist q p)) else kept

/-- Processing order of _select_by_peak_distance: peaks sorted by priority
(their sample value) descending, processed highest first.  Numpy argsort
leaves the order of equal priorities unspecified; a stable sort is fixed
here — the separation invariant holds for every order. -/
def peakOrder (x : List ℚ) (peaks : List ℕ) : List ℕ :=
  List.insertionSort (fun a b => x.getD b 0 ≤ x.getD a 0) peaks

/-- Scipy _select_by_peak_distance (find_peaks with `distance=`). -/
def selectByPeakDistance (x : List ℚ) (d : ℕ) (peaks : List ℕ) : List ℕ :=
  (peakOrder x peaks).foldl (processPeak d) peaks

/-- Scipy find_peaks with `height=` and `distance=`: local maxima, filtered by
required height, thinned by minimal distance (scipy applies the height filter
before the distance filter; scipy additionally rejects `distance < 1` with a
ValueError). -/
def findPeaks (x : List ℚ) (height : ℚ) (d : ℕ) : List ℕ :=
  selectByPeakDistance x d
    ((localMaxima x).filter (fun p => decide (height ≤ x.getD p 0)))

/-- The refractory distance of peak_detector.py line 66:
`round(0.2 * fs)` samples (Python round, half to even). -/
def ecgMinDistance (fs : ℚ) : ℕ := (roundHalfEven (1/5 * fs)).toNat

/-- Step 5 of EcgPeakDetector.run: peak candidates on the integrated signal
need height at least the signal's own mean and separation `round(0.2 * fs)`. -/
def ecgDetect (x : List ℚ) (fs : ℚ) : List ℕ :=
  findPeaks x (npMean x) (ecgMinDistance fs)

/-- Inter-beat intervals (peak_detector.py line 72):
`round_(1000 * diff(locs) / fs)` in milliseconds. -/
def EcgPeakDetector.ibis (locs : List ℕ) (fs : ℚ) : List ℤ :=
  (locs.zip locs.tail).map
    (fun pr => roundHalfEven (1000 * ((pr.2 : ℚ) - (pr.1 : ℚ)) / fs))

/-- ECG record (sensors/ecg.py). -/
structure EcgData where
  timestamps : List ℚ
  values : List ℚ
  fs : ℚ

/-- Instance attributes of an EcgPeakDetector: __init__ (lines 31-33) assigns
only `settings`; no method ever assigns `ecg`, yet `run` reads `self.ecg.fs`
at steps 4a and 5. -/
structure EcgPeakDetectorState where
  settings : Option Unit
  ecg : Option EcgData

/-- EcgPeakDetector.__init__. -/
def EcgPeakDetector.init (settings : Option Unit) : EcgPeakDetectorState :=
  { settings := settings, ecg := none }

/-- The rr output of EcgPeakDetector.run (lines 70-76). -/
structure EcgRR where
  timestamps : List ℚ
  inter_beat_interval : List ℤ
  heart_rate : List ℤ

/-- EcgPeakDetector.run (lines 39-78).  Steps 1-3 (bandpass, derivative,
squaring) are floating-point DSP that raises only filtfilt's length check
(`padlen = 3*(7-1) = 18` for the order-3 bandpass) and whose values do not
affect control flow; `integrated` stands for the stage-4 output.  Step 4a
evaluates `int(self.WIN_LEN_SEC * self.ecg.fs)`: `self.ecg` was never
assigned, so the attribute lookup raises.  The `some` branch models the rest
of the code (line 66 uses `self.ecg.fs` for the refractory distance, lines
71-74 use the `ecg` parameter). -/
def EcgPeakDetector.run (st : EcgPeakDetectorState) (ecg : EcgData)
    (integrated : List ℚ) : Except PyErr EcgRR :=
  if ecg.values.length ≤ 18 then .error .valueError
  else
    match st.ecg with
    | none => .error .attributeError
    | some se =>
      .ok { timestamps := ((ecgDetect integrated se.fs).drop 1).map
              (fun i => ecg.timestamps.getD i 0)
            inter_beat_interval :=
              EcgPeakDetector.ibis (ecgDetect integrated se.fs) ecg.fs
            heart_rate :=
              (EcgPeakDetector.ibis (ecgDetect integrated se.fs) ecg.fs).map
                (fun ibi => roundHalfEven (60000 / (ibi : ℚ))) }

/-- Claim C4 (code bug): every call of EcgPeakDetector.run on a record long
enough to pass filtfilt raises AttributeError at step 4a, because it reads
`self.ecg.fs` and `self.ecg` is never assigned — it never returns the empty
outputs the claim promises for fewer than 2 peaks. -/
theorem ecg_run_raises_attribute_error (settings : Option Unit) (ecg : EcgData)
    (integrated : List ℚ) (hlen : 18 < ecg.values.length) :
    EcgPeakDetector.run (EcgPeakDetector.init settings) ecg integrated =
      .error .attributeError := by
  unfold EcgPeakDetector.run EcgPeakDetector.init
  rw [if_neg (by omega)]

/-- Witness for C4: a flat 2-second record at 256 samples (fs 128) — no peaks
at all — still raises AttributeError instead of returning empty outputs. -/
theorem ecg_run_raises_attribute_error_witness :
    EcgPeakDetector.run (EcgPeakDetector.init none)
      ⟨List.replicate 256 0, List.replicate 256 0, 128⟩ (List.replicate 256 0) =
      .error .attributeError :=
  ecg_run_raises_attribute_error none
    ⟨List.replicate 256 0, List.replicate 256 0, 128⟩ (List.replicate 256 0)
    (by rw [List.length_replicate]; norm_num)

/-- The plateau scan never moves left. -/
lemma plateauEnd_ge (x : List ℚ) (v : ℚ) (iMax : ℕ) :
    ∀ (fuel i : ℕ), i ≤ plateauEnd x v iMax fuel i := by
  intro fuel
  induction fuel with
  | zero => intro i; exact le_refl i
  | succ f ih =>
    intro i
    rw [plateauEnd]
    split
    · exact le_trans (by omega) (ih (i + 1))
    · exact le_refl i

/-- Every local maximum emitted from position `i` is at index at least `i`. -/
lemma lmAux_ge (x : List ℚ) (iMax : ℕ) :
    ∀ (fuel i : ℕ), ∀ p ∈ lmAux x iMax fuel i, i ≤ p := by
  intro fuel
  induction fuel with
  | zero => intro i p hp; exact absurd hp (List.not_mem_nil p)
  | succ f ih =>
    intro i p hp
    rw [lmAux] at hp
    split at hp
    · split at hp
      · split at hp
        · rcases List.mem_cons.mp hp with rfl | hp'
          · have hpe := plateauEnd_ge x (x.getD i 0) iMax x.length (i + 1)
            omega
          · have h1 := ih _ p hp'
            have hpe := plateauEnd_ge x (x.getD i 0) iMax x.length (i + 1)
            omega
        · have h1 := ih _ p hp
          omega
      · have h1 := ih _ p hp
        omega
    · exact absurd hp (List.not_mem_nil p)

/-- The emitted local maxima are strictly increasing. -/
lemma lmAux_pairwise (x : List ℚ) (iMax : ℕ) :
    ∀ (fuel i : ℕ), (lmAux x iMax fuel i).Pairwise (· < ·) := by
  intro fuel
  induction fuel with
  | zero => intro i; exact List.Pairwise.nil
  | succ f ih =>
    intro i
    rw [lmAux]
    split
    · split
      · split
        · refine List.Pairwise.cons ?_ (ih _)
          intro b hb
          have h1 := lmAux_ge x iMax f _ b hb
          have hpe := plateauEnd_ge x (x.getD i 0) iMax x.length (i + 1)
          omega
        · exact ih _
      · exact ih _
    · exact List.Pairwise.nil

/-- A processing step only removes kept peaks. -/
lemma processPeak_sublist (d : ℕ) (kept : List ℕ) (p : ℕ) :
    List.Sublist (processPeak d kept p) kept := by
  unfold processPeak
  split
  · exact List.filter_sublist _
  · exact List.Sublist.refl _

/-- The whole processing pass only removes kept peaks. -/
lemma foldl_processPeak_sublist (d : ℕ) :
    ∀ (l kept : List ℕ), List.Sublist (l.foldl (processPeak d) kept) kept := by
  intro l
  induction l with
  | nil => intro kept; exact List.Sublist.refl _
  | cons a t ih =>
    intro kept
    exact (ih (processPeak d kept a)).trans (processPeak_sublist d kept a)

/-- Any two surviving peaks, one of which was processed, are equal or at
least `d` apart: when the processed peak came up it was still kept (the
final list only shrinks), so its filter removed every closer survivor. -/
lemma foldl_processPeak_dist (d : ℕ) :
    ∀ (l kept : List ℕ) (p q : ℕ), p ∈ l →
      p ∈ l.foldl (processPeak d) kept → q ∈ l.foldl (processPeak d) kept →
      q = p ∨ d ≤ natDist q p := by
  intro l
  induction l with
  | nil => intro kept p q hp; exact absurd hp (List.not_mem_nil p)
  | cons a t ih =>
    intro kept p q hp hpf hqf
    rcases List.mem_cons.mp hp with rfl | hpt
    · have hsub := foldl_processPeak_sublist d t (processPeak d kept p)
      have hpk : p ∈ processPeak d kept p := hsub.subset hpf
      have hqk : q ∈ processPeak d kept p := hsub.subset hqf
      unfold processPeak at hpk hqk
      by_cases hmem : p ∈ kept
      · rw [if_pos hmem] at hqk
        have hcond := List.of_mem_filter hqk
        simpa using hcond
      · rw [if_neg hmem] at hpk
        exact absurd hpk hmem
    · exact ih _ p q hpt hpf hqf

/-- The distance selection keeps an increasing list whose surviving peaks are
pairwise at least `d` apart. -/
lemma selectByPeakDistance_spec (x : List ℚ) (d : ℕ) (peaks : List ℕ)
    (hpw : peaks.Pairwise (· < ·)) :
    (selectByPeakDistance x d peaks).Pairwise (· < ·) ∧
    (selectByPeakDistance x d peaks).Pairwise (fun a b => a + d ≤ b) := by
  unfold selectByPeakDistance
  have hsub := foldl_processPeak_sublist d (peakOrder x peaks) peaks
  refine ⟨hpw.sublist hsub, ?_⟩
  refine List.Pairwise.imp_of_mem ?_ (hpw.sublist hsub)
  intro a b ha hb hab
  have hao : a ∈ peakOrder x peaks :=
    ((List.perm_insertionSort _ peaks).symm.subset) (hsub.subset ha)
  rcases foldl_processPeak_dist d (peakOrder x peaks) peaks a b hao ha hb with
    h | h
  · omega
  · unfold natDist at h
    omega

/-- Claim C3 (amended): the accepted ECG peaks are strictly increasing and
consecutive accepted peaks are at least `round(0.2*fs)` SAMPLES apart — the
refractory period the code actually enforces.  The 200 ms bound in
milliseconds follows only when `round(0.2*fs) ≥ 0.2*fs`; when rounding goes
down (e.g. fs = 512 or fs = 11) two beats may be reported closer than
200 ms. -/
theorem ecg_refractory_sample_gap (x : List ℚ) (fs : ℚ) :
    (ecgDetect x fs).Pairwise (· < ·) ∧
    List.Chain' (fun a b => a + ecgMinDistance fs ≤ b) (ecgDetect x fs) := by
  have hmax : (localMaxima x).Pairwise (· < ·) :=
    lmAux_pairwise x (x.length - 1) x.length 1
  have htall : ((localMaxima x).filter
      (fun p => decide (npMean x ≤ x.getD p 0))).Pairwise (· < ·) :=
    hmax.sublist (List.filter_sublist _)
  have hspec := selectByPeakDistance_spec x (ecgMinDistance fs) _ htall
  exact ⟨hspec.1, hspec.2.chain'⟩

/-- Counterexample for C3: on the integrated signal [0,1,0,1,0] at
fs = 11 Hz the refractory distance is round(0.2*11) = round(2.2) = 2 samples,
both peaks (indices 1 and 3, exactly 2 samples apart) are accepted, and the
reported inter-beat interval is round(1000*2/11) = 182 ms < 200 ms: two
accepted beats closer than 200 ms. -/
theorem ecg_ibi_below_200ms :
    ecgDetect [0, 1, 0, 1, 0] 11 = [1, 3] ∧
    EcgPeakDetector.ibis (ecgDetect [0, 1, 0, 1, 0] 11) 11 = [182] ∧
    (182 : ℤ) < 200 := by
  have h1 : localMaxima [0, 1, 0, 1, 0] = [1, 3] := by
    norm_num [localMaxima, lmAux, plateauEnd]
  have h3 : ecgMinDistance 11 = 2 := by
    have hfl : ⌊(1/5 * 11 : ℚ)⌋ = 2 := Int.floor_eq_iff.mpr ⟨by norm_num, by norm_num⟩
    have hr : roundHalfEven (1/5 * 11 : ℚ) = 2 := by
      norm_num [roundHalfEven, hfl]
    rw [ecgMinDistance, hr]
    rfl
  have h4 : ecgDetect [0, 1, 0, 1, 0] 11 = [1, 3] := by
    rw [ecgDetect, findPeaks, h1, h3]
    norm_num [npMean, selectByPeakDistance, peakOrder, List.insertionSort,
      List.orderedInsert, processPeak, natDist]
  refine ⟨h4, ?_, by norm_num⟩
  rw [h4]
  have hfl : ⌊(2000 / 11 : ℚ)⌋ = 181 :=
    Int.floor_eq_iff.mpr ⟨by norm_num, by norm_num⟩
  have hfr : Int.fract (2000 / 11 : ℚ) = 9 / 11 := by
    rw [Int.fract, hfl]
    norm_num
  norm_num [EcgPeakDetector.ibis, roundHalfEven, hfl, hfr]
